import Mathlib

/-!
Verification of the NOX nonlinear-solver interface of hermes-dev
(`hermes_common/include/solvers/nox_solver.h`).

The header provides the data model (`conv_t`, `conv_flag_t`, the solver
fields) and the inline configuration setters; those are embedded directly
from the source.  The bodies of `solve`, `computeF`, `computeJacobian` and
`computePreconditioner` live outside the header; wherever a definition is
reconstructed from the specification rather than from source code, its doc
comment says so explicitly.  C++ `double` values are modelled as rationals
(with the weighted-RMS square root taken in `ℝ` at the statement level),
`int` as `Int`, and the one-bit `unsigned` bitfields of `conv_flag_t` as
`Bool` (`1` = `true`).
-/

namespace Hermes
namespace Solvers

/-- Norm selection for the residual tests (`NOX::Abstract::Vector::NormType`). -/
inductive NormType where
  | OneNorm
  | TwoNorm
  | MaxNorm
deriving DecidableEq

/-- Scaling mode of the residual-norm tests (`NOX::StatusTest::NormF::ScaleType`). -/
inductive ScaleType where
  | Scaled
  | Unscaled
deriving DecidableEq

/-- Convergence parameters, after `struct conv_t` in `nox_solver.h`. -/
structure conv_t where
  max_iters : Int
  abs_resid : ℚ
  rel_resid : ℚ
  norm_type : NormType
  stype : ScaleType
  update : ℚ
  wrms_rtol : ℚ
  wrms_atol : ℚ
deriving DecidableEq

/-- Enable bits of the four value-based tests, after `struct conv_flag_t`
(one-bit fields `absresid`, `relresid`, `wrms`, `update`). -/
structure conv_flag_t where
  absresid : Bool
  relresid : Bool
  wrms : Bool
  update : Bool
deriving DecidableEq

/-- State of `NoxSolver`: the protected fields declared in `nox_solver.h`. -/
structure NoxSolver where
  num_iters : Int
  residual : ℚ
  num_lin_iters : Int
  achieved_tol : ℚ
  output_flags : Int
  ls_type : String
  ls_max_iters : Int
  ls_tolerance : ℚ
  ls_sizeof_krylov_subspace : Int
  precond_type : String
  conv : conv_t
  conv_flag : conv_flag_t
deriving DecidableEq

/-- `get_num_iters` (returns the `num_iters` field). -/
def get_num_iters (s : NoxSolver) : Int := s.num_iters

/-- `get_residual` (returns the `residual` field). -/
def get_residual (s : NoxSolver) : ℚ := s.residual

/-- `get_num_lin_iters` (returns the `num_lin_iters` field). -/
def get_num_lin_iters (s : NoxSolver) : Int := s.num_lin_iters

/-- `get_achieved_tol` (returns the `achieved_tol` field). -/
def get_achieved_tol (s : NoxSolver) : ℚ := s.achieved_tol

/-- `set_output_flags(int flags) { output_flags = flags; }` -/
def set_output_flags (s : NoxSolver) (flags : Int) : NoxSolver :=
  { s with output_flags := flags }

/-- `set_ls_type(const char *type) { ls_type = type; }` -/
def set_ls_type (s : NoxSolver) (type : String) : NoxSolver :=
  { s with ls_type := type }

/-- `set_ls_max_iters(int iters) { ls_max_iters = iters; }` -/
def set_ls_max_iters (s : NoxSolver) (iters : Int) : NoxSolver :=
  { s with ls_max_iters := iters }

/-- `set_ls_tolerance(double tolerance) { ls_tolerance = tolerance; }` -/
def set_ls_tolerance (s : NoxSolver) (tolerance : ℚ) : NoxSolver :=
  { s with ls_tolerance := tolerance }

/-- `set_ls_sizeof_krylov_subspace(int size) { ls_sizeof_krylov_subspace = size; }` -/
def set_ls_sizeof_krylov_subspace (s : NoxSolver) (size : Int) : NoxSolver :=
  { s with ls_sizeof_krylov_subspace := size }

/-- `set_norm_type(type) { conv.norm_type = type; }` -/
def set_norm_type (s : NoxSolver) (type : NormType) : NoxSolver :=
  { s with conv := { s.conv with norm_type := type } }

/-- `set_scale_type(type) { conv.stype = type; }` -/
def set_scale_type (s : NoxSolver) (type : ScaleType) : NoxSolver :=
  { s with conv := { s.conv with stype := type } }

/-- `set_conv_iters(int iters) { conv.max_iters = iters; }` -/
def set_conv_iters (s : NoxSolver) (iters : Int) : NoxSolver :=
  { s with conv := { s.conv with max_iters := iters } }

/-- `set_conv_abs_resid(double resid) { conv_flag.absresid = 1; conv.abs_resid = resid; }` -/
def set_conv_abs_resid (s : NoxSolver) (resid : ℚ) : NoxSolver :=
  { s with conv_flag := { s.conv_flag with absresid := true },
           conv := { s.conv with abs_resid := resid } }

/-- `set_conv_rel_resid(double resid) { conv_flag.relresid = 1; conv.rel_resid = resid; }` -/
def set_conv_rel_resid (s : NoxSolver) (resid : ℚ) : NoxSolver :=
  { s with conv_flag := { s.conv_flag with relresid := true },
           conv := { s.conv with rel_resid := resid } }

/-- `disable_abs_resid() { conv_flag.absresid = 0; }` -/
def disable_abs_resid (s : NoxSolver) : NoxSolver :=
  { s with conv_flag := { s.conv_flag with absresid := false } }

/-- `disable_rel_resid() { conv_flag.relresid = 0; }` -/
def disable_rel_resid (s : NoxSolver) : NoxSolver :=
  { s with conv_flag := { s.conv_flag with relresid := false } }

/-- `set_conv_update(double update) { conv_flag.update = 1; conv.update = update; }` -/
def set_conv_update (s : NoxSolver) (upd : ℚ) : NoxSolver :=
  { s with conv_flag := { s.conv_flag with update := true },
           conv := { s.conv with update := upd } }

/-- `set_conv_wrms(double rtol, double atol)
    { conv_flag.wrms = 1; conv.wrms_rtol = rtol; conv.wrms_atol = atol; }` -/
def set_conv_wrms (s : NoxSolver) (rtol atol : ℚ) : NoxSolver :=
  { s with conv_flag := { s.conv_flag with wrms := true },
           conv := { s.conv with wrms_rtol := rtol, wrms_atol := atol } }

/-- Modelled from the spec: the body of `NoxSolver::set_precond(const char *pc)`
is absent from the header; the spec says the setter accepts a named built-in
preconditioner, so it stores the name in the `precond_type` field. -/
def set_precond_name (s : NoxSolver) (pc : String) : NoxSolver :=
  { s with precond_type := pc }

/-- Modelled from the spec: the relative-residual test of the composite
convergence criterion (the body of `solve`, which builds the status tests, is
absent from the header).  It compares the current residual norm against
`rel_resid * initial_residual_norm`, and in the degenerate case
`initial_residual_norm = 0` it is defined as immediately satisfied, so no
division by zero can occur. -/
def relResidTest (c : conv_t) (initResid resid : ℚ) : Bool :=
  if initResid = 0 then true else decide (resid ≤ c.rel_resid * initResid)

/-- Modelled from the spec: the composite success decision of one outer
iteration (the body of `solve` is absent from the header).  It is the
OR-combination of the enabled value-based tests: absolute residual, relative
residual, update norm, and weighted RMS (whose implicit threshold is `1`).
`initResid`, `resid`, `upd`, `wrmsv` are the initial residual norm, the
current residual norm, the current update norm and the current weighted-RMS
value. -/
def convergedAt (cf : conv_flag_t) (c : conv_t) (initResid resid upd wrmsv : ℚ) : Bool :=
  (cf.absresid && decide (resid ≤ c.abs_resid)) ||
  (cf.relresid && relResidTest c initResid resid) ||
  (cf.update && decide (upd ≤ c.update)) ||
  (cf.wrms && decide (wrmsv ≤ 1))

/-- The composite convergence predicate as a function of the solver state. -/
def compositeTest (s : NoxSolver) (initResid resid upd wrmsv : ℚ) : Bool :=
  convergedAt s.conv_flag s.conv initResid resid upd wrmsv

/-- Outcome of the outer iteration: the success flag and the number of outer
iterations performed. -/
structure Outcome where
  converged : Bool
  iters : Nat
deriving DecidableEq

/-- Modelled from the spec: the outer-iteration loop of `solve` (its body is
absent from the header).  At iteration `n` the value-based tests are checked
first; if one fires the run stops with success, otherwise the iteration-cap
failure test stops the run once the cap is exhausted (so at a tie the run is
classified as converged).  `test n` is the composite value-based decision at
iteration `n`; the second numeric argument is the remaining iteration budget. -/
def runAux (test : Nat → Bool) : Nat → Nat → Outcome
  | n, 0 => ⟨test n, n⟩
  | n, fuel + 1 => if test n then ⟨true, n⟩ else runAux test (n + 1) fuel

/-- Modelled from the spec: one outer nonlinear run of `solve`, driven by the
per-iteration residual norm, update norm and weighted-RMS value sequences, with
the iteration cap taken from `conv.max_iters`. -/
def runOuter (s : NoxSolver) (initResid : ℚ) (resid upd wrmsv : Nat → ℚ) : Outcome :=
  runAux (fun n => compositeTest s initResid (resid n) (upd n) (wrmsv n)) 0
    s.conv.max_iters.toNat

/-- Modelled from the spec: the square of the weighted-RMS value of an update
vector `u` at iterate `x`, namely `mean((u_i / (atol + rtol * abs (x_i)))^2)`
(the weighted-RMS status test is built by the absent body of `solve`).  The
weighted-RMS value itself is its real square root, taken at the statement
level. -/
def wrmsSq (rtol atol : ℚ) (x u : List ℚ) : ℚ :=
  (List.zipWith (fun xi ui => (ui / (atol + rtol * |xi|)) ^ 2) x u).sum / x.length

/-- The six iterative-technique names accepted by `set_ls_type`, as listed in
its documentation in `nox_solver.h`. -/
def validMethodNames : List String :=
  ["GMRES", "CG", "CGS", "TFQMR", "BiCGStab", "LU"]

/-- Modelled from the spec: the linear-solver configuration check performed at
solve entry (the body of `solve` is absent from the header; the setters
themselves store the given value unvalidated).  A configuration is in error
when the method name is unrecognized, the iteration cap is non-positive, or
the tolerance is non-positive. -/
def lsConfigError (s : NoxSolver) : Bool :=
  !(decide (s.ls_type ∈ validMethodNames)) ||
  decide (s.ls_max_iters ≤ 0) ||
  decide (s.ls_tolerance ≤ 0)

/-- The observable data of one run of the external nonlinear-iteration engine:
the accepted iterates in order, the terminal success flag, and the statistics
it reports back. -/
structure EngineTrace where
  accepted : List (List ℚ)
  success : Bool
  iters : Int
  finalResid : ℚ
  linIters : Int
  achievedTol : ℚ

/-- Modelled from the spec: `solve(Scalar* coeff_vec)` (its body is absent
from the header).  It checks the linear-solver configuration at entry and
reports failure without running if it is in error; otherwise it delegates to
the external engine, stores the reported statistics in the solver fields,
leaves the in/out coefficient vector at the last accepted iterate (at the
initial guess when no step was accepted) and returns the engine's success
flag.  The result is the updated solver state, the final coefficient vector
and the boolean success flag. -/
def solveModel (s : NoxSolver) (x0 : List ℚ) (tr : EngineTrace) :
    NoxSolver × List ℚ × Bool :=
  if lsConfigError s then (s, x0, false)
  else
    ({ s with num_iters := tr.iters, residual := tr.finalResid,
              num_lin_iters := tr.linIters, achieved_tol := tr.achievedTol },
     tr.accepted.getLastD x0, tr.success)

/-- The problem callbacks consumed by the adapter
(`DiscreteProblemInterface<Scalar>`): residual assembly (fallible) and
Jacobian assembly. -/
structure DiscreteProblemInterface where
  residualFn : List ℚ → Option (List ℚ)
  jacobianFn : List ℚ → List (List ℚ)

/-- A user-supplied preconditioner object (`Precond<Scalar>`): an internal
state together with its recompute operation, which from an iterate reports
success and produces a new internal state. -/
structure Precond where
  state : List ℚ
  computeFn : List ℚ → Bool × List ℚ

/-- State of `NoxDiscreteProblem`: the wrapped problem `dp`, the adapter-owned
Jacobian storage, and the optional attached preconditioner. -/
structure NoxDiscreteProblem where
  dp : DiscreteProblemInterface
  jacobian : List (List ℚ)
  precond : Option Precond

/-- `NoxDiscreteProblem::set_precond` attaches a preconditioner object. -/
def set_precond (a : NoxDiscreteProblem) (pc : Precond) : NoxDiscreteProblem :=
  { a with precond := some pc }

/-- Modelled from the spec: `NoxDiscreteProblem::computeJacobian` (its body is
absent from the header).  It assembles the Jacobian at `x` into the
adapter-owned storage, overwriting every entry, touches nothing else, and
reports success of the assembly (assembly failure is not modelled: the claims
concern the overwrite semantics). -/
def computeJacobian (a : NoxDiscreteProblem) (x : List ℚ) :
    NoxDiscreteProblem × Bool :=
  ({ a with jacobian := a.dp.jacobianFn x }, true)

/-- Modelled from the spec: `NoxDiscreteProblem::computePreconditioner` (its
body is absent from the header).  With no attached preconditioner it is a
no-op that reports success (the engine falls back to the identity); with one
attached it recomputes the preconditioner's internal state at `x` and reports
that recomputation's success flag. -/
def computePreconditioner (a : NoxDiscreteProblem) (x : List ℚ) :
    NoxDiscreteProblem × Bool :=
  match a.precond with
  | none => (a, true)
  | some p =>
      let r := p.computeFn x
      ({ a with precond := some { p with state := r.2 } }, r.1)

/-- The six convergence-test configuration calls named by the spec. -/
inductive ConvCall where
  | setAbsResid (resid : ℚ)
  | setRelResid (resid : ℚ)
  | disableAbs
  | disableRel
  | setUpdate (tol : ℚ)
  | setWrms (rtol atol : ℚ)

/-- Semantics of a convergence-configuration call on the solver state, each
delegating to the corresponding setter embedded from the header. -/
def ConvCall.apply (c : ConvCall) (s : NoxSolver) : NoxSolver :=
  match c with
  | .setAbsResid r => set_conv_abs_resid s r
  | .setRelResid r => set_conv_rel_resid s r
  | .disableAbs => disable_abs_resid s
  | .disableRel => disable_rel_resid s
  | .setUpdate u => set_conv_update s u
  | .setWrms rt at' => set_conv_wrms s rt at'

/-- Which of the four value-based tests a configuration call concerns
(`0` absolute residual, `1` relative residual, `2` update, `3` weighted RMS);
two calls are independent when they concern different tests. -/
def ConvCall.test : ConvCall → Nat
  | .setAbsResid _ => 0
  | .setRelResid _ => 1
  | .disableAbs => 0
  | .disableRel => 1
  | .setUpdate _ => 2
  | .setWrms _ _ => 3

/-- The public operations of `NoxSolver` that act on its state: every setter
declared in the header, plus `solve`. -/
inductive NoxOp where
  | outputFlags (f : Int)
  | lsType (t : String)
  | lsMaxIters (n : Int)
  | lsTolerance (tol : ℚ)
  | lsKrylov (n : Int)
  | normType (nt : NormType)
  | scaleType (st : ScaleType)
  | convIters (n : Int)
  | convCall (c : ConvCall)
  | precondName (p : String)
  | solveOp (x0 : List ℚ) (tr : EngineTrace)

/-- Effect of a public operation on the solver state (`solve` through its
spec model, which only stores statistics). -/
def NoxOp.apply (o : NoxOp) (s : NoxSolver) : NoxSolver :=
  match o with
  | .outputFlags f => set_output_flags s f
  | .lsType t => set_ls_type s t
  | .lsMaxIters n => set_ls_max_iters s n
  | .lsTolerance tol => set_ls_tolerance s tol
  | .lsKrylov n => set_ls_sizeof_krylov_subspace s n
  | .normType nt => set_norm_type s nt
  | .scaleType st => set_scale_type s st
  | .convIters n => set_conv_iters s n
  | .convCall c => c.apply s
  | .precondName p => set_precond_name s p
  | .solveOp x0 tr => (solveModel s x0 tr).1

/-- A concrete solver state used to instantiate the theorems: freshly
configured with a valid linear solver and no value-based test enabled. -/
def demoSolver : NoxSolver :=
  { num_iters := 0, residual := 0, num_lin_iters := 0, achieved_tol := 0,
    output_flags := 0, ls_type := "GMRES", ls_max_iters := 10,
    ls_tolerance := 1, ls_sizeof_krylov_subspace := 50,
    precond_type := "None",
    conv := { max_iters := 3, abs_resid := 1, rel_resid := 1,
              norm_type := .TwoNorm, stype := .Scaled, update := 1,
              wrms_rtol := 1, wrms_atol := 1 },
    conv_flag := { absresid := false, relresid := false,
                   wrms := false, update := false } }

/-- A concrete adapter state with no preconditioner attached. -/
def demoAdapter : NoxDiscreteProblem :=
  { dp := { residualFn := fun x => some x, jacobianFn := fun _ => [[1]] },
    jacobian := [[0]], precond := none }

lemma runAux_eq_of_first (test : Nat → Bool) :
    ∀ (fuel n j : Nat), j ≤ fuel → test (n + j) = true →
      (∀ k, k < j → test (n + k) = false) →
      runAux test n fuel = ⟨true, n + j⟩ := by
  intro fuel
  induction fuel with
  | zero =>
    intro n j hj ht _
    interval_cases j
    simpa [runAux] using ht
  | succ f ih =>
    intro n j hj ht hmin
    cases j with
    | zero =>
      simp only [Nat.add_zero] at ht
      simp [runAux, ht]
    | succ j' =>
      have h0 : test n = false := by simpa using hmin 0 (Nat.succ_pos _)
      have ht' : test (n + 1 + j') = true := by
        have e : n + 1 + j' = n + (j' + 1) := by omega
        rw [e]; exact ht
      have hmin' : ∀ k, k < j' → test (n + 1 + k) = false := by
        intro k hk
        have e : n + 1 + k = n + (k + 1) := by omega
        rw [e]; exact hmin (k + 1) (by omega)
      have hrec := ih (n + 1) j' (Nat.le_of_succ_le_succ hj) ht' hmin'
      have e : n + 1 + j' = n + (j' + 1) := by omega
      rw [runAux, h0]
      simpa [e] using hrec

lemma runAux_eq_of_none (test : Nat → Bool) :
    ∀ (fuel n : Nat), (∀ k, k ≤ fuel → test (n + k) = false) →
      runAux test n fuel = ⟨false, n + fuel⟩ := by
  intro fuel
  induction fuel with
  | zero =>
    intro n h
    simpa [runAux] using h 0 le_rfl
  | succ f ih =>
    intro n h
    have h0 : test n = false := by simpa using h 0 (Nat.zero_le _)
    have hrec := ih (n + 1) (by
      intro k hk
      have e : n + 1 + k = n + (k + 1) := by omega
      rw [e]; exact h (k + 1) (by omega))
    have e : n + 1 + f = n + (f + 1) := by omega
    rw [runAux, h0]
    simpa [e] using hrec

/-- C1: the composite stopping decision is the OR-combination of the enabled
value-based tests; the run stops with success at the first iteration at which
some enabled test is satisfied (including at the iteration cap itself, so a
tie between a value-based test and the cap is classified as converged), and
the always-present iteration cap stops the run with failure when no enabled
test ever fires within the cap. -/
theorem composite_or_with_cap (s : NoxSolver) (initResid : ℚ)
    (resid upd wrmsv : Nat → ℚ) :
    (∀ i r u w, compositeTest s i r u w = true ↔
      ((s.conv_flag.absresid = true ∧ r ≤ s.conv.abs_resid) ∨
       (s.conv_flag.relresid = true ∧ relResidTest s.conv i r = true) ∨
       (s.conv_flag.update = true ∧ u ≤ s.conv.update) ∨
       (s.conv_flag.wrms = true ∧ w ≤ 1)))
    ∧ (∀ j, j ≤ s.conv.max_iters.toNat →
        compositeTest s initResid (resid j) (upd j) (wrmsv j) = true →
        (∀ k, k < j → compositeTest s initResid (resid k) (upd k) (wrmsv k) = false) →
        runOuter s initResid resid upd wrmsv = ⟨true, j⟩)
    ∧ ((∀ k, k ≤ s.conv.max_iters.toNat →
          compositeTest s initResid (resid k) (upd k) (wrmsv k) = false) →
        runOuter s initResid resid upd wrmsv = ⟨false, s.conv.max_iters.toNat⟩) := by
  refine ⟨?_, ?_, ?_⟩
  · intro i r u w
    simp only [compositeTest, convergedAt, Bool.or_eq_true, Bool.and_eq_true,
      decide_eq_true_eq]
    tauto
  · intro j hj ht hmin
    have := runAux_eq_of_first
      (fun n => compositeTest s initResid (resid n) (upd n) (wrmsv n))
      s.conv.max_iters.toNat 0 j hj (by simpa using ht) (by simpa using hmin)
    simpa [runOuter] using this
  · intro h
    have := runAux_eq_of_none
      (fun n => compositeTest s initResid (resid n) (upd n) (wrmsv n))
      s.conv.max_iters.toNat 0 (by simpa using h)
    simpa [runOuter] using this

/-- Witness for C1 at a concrete configuration with no value-based test
enabled: the run fails exactly at the cap. -/
theorem composite_or_with_cap_witness :
    runOuter demoSolver 1 (fun _ => 1) (fun _ => 1) (fun _ => 2) = ⟨false, 3⟩ :=
  (composite_or_with_cap demoSolver 1 (fun _ => 1) (fun _ => 1) (fun _ => 2)).2.2
    (by decide)

/-- C2: the iteration cap is always active: whenever the per-iteration norms
never satisfy any enabled value-based test, the run stops with failure after
exactly `max_iters` outer iterations; moreover with zero value-based tests
enabled no iteration can ever satisfy the composite test, so the cap is the
sole terminating criterion. -/
theorem iteration_cap_enforced (s : NoxSolver) (initResid : ℚ)
    (resid upd wrmsv : Nat → ℚ) :
    ((∀ n, compositeTest s initResid (resid n) (upd n) (wrmsv n) = false) →
       runOuter s initResid resid upd wrmsv = ⟨false, s.conv.max_iters.toNat⟩)
    ∧ (s.conv_flag = ⟨false, false, false, false⟩ →
       ∀ n, compositeTest s initResid (resid n) (upd n) (wrmsv n) = false) := by
  constructor
  · intro h
    have := runAux_eq_of_none
      (fun n => compositeTest s initResid (resid n) (upd n) (wrmsv n))
      s.conv.max_iters.toNat 0 (by intro k _; simpa using h k)
    simpa [runOuter] using this
  · intro h n
    simp [compositeTest, convergedAt, h]

/-- Witness for C2: a solver with zero value-based tests enabled and cap `3`
stops with failure after exactly `3` outer iterations. -/
theorem iteration_cap_enforced_witness :
    runOuter demoSolver 2 (fun _ => 1) (fun _ => 1) (fun _ => 3) = ⟨false, 3⟩ :=
  (iteration_cap_enforced demoSolver 2 (fun _ => 1) (fun _ => 1) (fun _ => 3)).1
    ((iteration_cap_enforced demoSolver 2 (fun _ => 1) (fun _ => 1) (fun _ => 3)).2 rfl)

lemma wrms_terms_nonneg (rtol atol : ℚ) :
    ∀ (x u : List ℚ),
      0 ≤ (List.zipWith (fun xi ui => (ui / (atol + rtol * |xi|)) ^ 2) x u).sum := by
  intro x
  induction x with
  | nil => intro u; simp
  | cons a xs ih =>
    intro u
    cases u with
    | nil => simp
    | cons b us =>
      simpa using add_nonneg (sq_nonneg (b / (atol + rtol * |a|))) (ih us)

lemma wrms_boundary_sum (rtol atol : ℚ) :
    ∀ (x u : List ℚ), x.length = u.length →
      (∀ xi ∈ x, 0 < atol + rtol * |xi|) →
      (∀ p ∈ List.zip x u, p.2 = atol + rtol * |p.1|) →
      (List.zipWith (fun xi ui => (ui / (atol + rtol * |xi|)) ^ 2) x u).sum =
        (x.length : ℚ) := by
  intro x
  induction x with
  | nil => intro u _ _ _; simp
  | cons a xs ih =>
    intro u hlen hpos hu
    cases u with
    | nil => simp at hlen
    | cons b us =>
      have hb : b = atol + rtol * |a| := hu (a, b) (by simp)
      have hpa : 0 < atol + rtol * |a| := hpos a (by simp)
      have hterm : (b / (atol + rtol * |a|)) ^ 2 = 1 := by
        rw [hb, div_self (ne_of_gt hpa)]; norm_num
      have hrest := ih us (by simpa using hlen)
        (fun xi hxi => hpos xi (by simp [hxi]))
        (fun p hp => hu p (by simp [hp]))
      simp only [List.zipWith_cons_cons, List.sum_cons, List.length_cons]
      rw [hterm, hrest]
      push_cast
      ring

/-- C3: `set_conv_wrms` stores `rtol` and `atol` verbatim and enables the
weighted-RMS test; the weighted-RMS value is the real square root of
`wrmsSq rtol atol x u = mean((u_i / (atol + rtol * abs (x_i)))^2)`, is
nonnegative, and its comparison against the implicit threshold `1` coincides
with comparing `wrmsSq` against `1`; and for an update vector whose every
component equals `atol + rtol * abs (x_i)` (weights positive, vector
nonempty) the weighted-RMS value is exactly `1`. -/
theorem wrms_formula_and_boundary (s : NoxSolver) (rtol atol : ℚ)
    (x u : List ℚ) :
    ((set_conv_wrms s rtol atol).conv.wrms_rtol = rtol
      ∧ (set_conv_wrms s rtol atol).conv.wrms_atol = atol
      ∧ (set_conv_wrms s rtol atol).conv_flag.wrms = true)
    ∧ (0 ≤ wrmsSq rtol atol x u
      ∧ (Real.sqrt ((wrmsSq rtol atol x u : ℚ) : ℝ) ≤ 1 ↔
          wrmsSq rtol atol x u ≤ 1))
    ∧ (x.length = u.length → x ≠ [] →
        (∀ xi ∈ x, 0 < atol + rtol * |xi|) →
        (∀ p ∈ List.zip x u, p.2 = atol + rtol * |p.1|) →
        Real.sqrt ((wrmsSq rtol atol x u : ℚ) : ℝ) = 1) := by
  refine ⟨⟨rfl, rfl, rfl⟩, ⟨?_, ?_⟩, ?_⟩
  · exact div_nonneg (wrms_terms_nonneg rtol atol x u) (Nat.cast_nonneg _)
  · rw [Real.sqrt_le_one]
    exact_mod_cast Iff.rfl
  · intro hlen hne hpos hu
    have hlen0 : (x.length : ℚ) ≠ 0 := by
      exact_mod_cast Nat.pos_iff_ne_zero.mp (List.length_pos.mpr hne)
    have hq : wrmsSq rtol atol x u = 1 := by
      rw [wrmsSq, wrms_boundary_sum rtol atol x u hlen hpos hu,
        div_self hlen0]
    rw [hq]
    simp

/-- Witness for C3 at `rtol = atol = 1`, `x = [1, 2]`, `u = [2, 3]`: every
update component equals `atol + rtol * abs (x_i)` and the weighted-RMS value
is exactly `1`. -/
theorem wrms_formula_and_boundary_witness :
    Real.sqrt ((wrmsSq 1 1 [1, 2] [2, 3] : ℚ) : ℝ) = 1 :=
  (wrms_formula_and_boundary demoSolver 1 1 [1, 2] [2, 3]).2.2
    (by norm_num) (by simp)
    (by norm_num [List.forall_mem_cons])
    (by norm_num [List.zip_cons_cons, List.forall_mem_cons])

/-- A concrete engine trace used to instantiate the theorems. -/
def demoTrace : EngineTrace :=
  { accepted := [[1], [2]], success := false, iters := 2,
    finalResid := 1 / 2, linIters := 5, achievedTol := 1 / 2 }

/-- C4: consecutive Jacobian evaluations overwrite the adapter-owned storage
in place: after evaluating at `x1` and then at `x2`, the stored Jacobian is
exactly the Jacobian of `x2` alone, identical to what a single evaluation at
`x2` produces, and nothing outside the Jacobian storage is touched. -/
theorem jacobian_overwrite_no_leak (a : NoxDiscreteProblem) (x1 x2 : List ℚ) :
    (computeJacobian (computeJacobian a x1).1 x2).1.jacobian = a.dp.jacobianFn x2
    ∧ (computeJacobian (computeJacobian a x1).1 x2).1 = (computeJacobian a x2).1
    ∧ ((computeJacobian a x1).1.dp = a.dp
        ∧ (computeJacobian a x1).1.precond = a.precond)
    ∧ (computeJacobian a x1).2 = true :=
  ⟨rfl, rfl, ⟨rfl, rfl⟩, rfl⟩

/-- C6: with no preconditioner attached, `computePreconditioner` is a no-op
that reports success; with one attached, it recomputes the preconditioner's
internal state at `x`, reports that recomputation's success flag, and touches
nothing else. -/
theorem precond_noop_or_recompute (a : NoxDiscreteProblem) (x : List ℚ) :
    (a.precond = none → computePreconditioner a x = (a, true))
    ∧ (∀ p, a.precond = some p →
        (computePreconditioner a x).2 = (p.computeFn x).1
        ∧ (computePreconditioner a x).1.precond =
            some { p with state := (p.computeFn x).2 }
        ∧ (computePreconditioner a x).1.jacobian = a.jacobian
        ∧ (computePreconditioner a x).1.dp = a.dp) := by
  constructor
  · intro h
    simp [computePreconditioner, h]
  · intro p hp
    refine ⟨?_, ?_, ?_, ?_⟩ <;> simp [computePreconditioner, hp]

/-- Witness for C6: on an adapter with no attached preconditioner the call is
a successful no-op. -/
theorem precond_noop_or_recompute_witness :
    computePreconditioner demoAdapter [1] = (demoAdapter, true) :=
  (precond_noop_or_recompute demoAdapter [1]).1 rfl

/-- C7: the relative-residual test never divides by zero: with a zero initial
residual norm it is immediately satisfied, otherwise it compares the residual
norm against `rel_resid * initial_residual_norm`; and the composite predicate
is total, evaluating to `true` or `false` on every input. -/
theorem rel_resid_no_div_by_zero (cf : conv_flag_t) (c : conv_t) (i r u w : ℚ) :
    (i = 0 → relResidTest c i r = true)
    ∧ (i ≠ 0 → (relResidTest c i r = true ↔ r ≤ c.rel_resid * i))
    ∧ (convergedAt cf c i r u w = true ∨ convergedAt cf c i r u w = false) := by
  refine ⟨?_, ?_, ?_⟩
  · intro h
    simp [relResidTest, h]
  · intro h
    simp [relResidTest, h]
  · cases h : convergedAt cf c i r u w
    · exact Or.inr rfl
    · exact Or.inl rfl

/-- Witness for C7: with initial residual norm `0` the relative test is
satisfied at residual norm `5`. -/
theorem rel_resid_no_div_by_zero_witness :
    relResidTest demoSolver.conv 0 5 = true :=
  (rel_resid_no_div_by_zero demoSolver.conv_flag demoSolver.conv 0 5 0 0).1 rfl

/-- C5: the linear-solver setters store the given value verbatim (no clamping
or adjustment), and an unrecognized method name, a non-positive iteration cap
or a non-positive tolerance makes the configuration-error check fire, upon
which the solve entry reports failure without running. -/
theorem ls_config_validation (s : NoxSolver) (t : String) (it : Int) (tol : ℚ)
    (x0 : List ℚ) (tr : EngineTrace) :
    ((set_ls_type s t).ls_type = t
      ∧ (set_ls_max_iters s it).ls_max_iters = it
      ∧ (set_ls_tolerance s tol).ls_tolerance = tol)
    ∧ (t ∉ validMethodNames → lsConfigError (set_ls_type s t) = true)
    ∧ (it ≤ 0 → lsConfigError (set_ls_max_iters s it) = true)
    ∧ (tol ≤ 0 → lsConfigError (set_ls_tolerance s tol) = true)
    ∧ (lsConfigError s = true → solveModel s x0 tr = (s, x0, false)) := by
  refine ⟨⟨rfl, rfl, rfl⟩, ?_, ?_, ?_, ?_⟩
  · intro h
    simp [lsConfigError, set_ls_type, h]
  · intro h
    simp [lsConfigError, set_ls_max_iters, h]
  · intro h
    simp [lsConfigError, set_ls_tolerance, h]
  · intro h
    simp [solveModel, h]

/-- Witness for C5: the unrecognized method name FOO and non-positive caps and
tolerances each fire the configuration-error check, and a solver in
configuration error fails at solve entry. -/
theorem ls_config_validation_witness :
    lsConfigError (set_ls_type demoSolver "FOO") = true
    ∧ lsConfigError (set_ls_max_iters demoSolver 0) = true
    ∧ lsConfigError (set_ls_tolerance demoSolver 0) = true
    ∧ solveModel (set_ls_type demoSolver "FOO") [1] demoTrace =
        (set_ls_type demoSolver "FOO", [1], false) :=
  ⟨(ls_config_validation demoSolver "FOO" 0 0 [1] demoTrace).2.1 (by decide),
   (ls_config_validation demoSolver "FOO" 0 0 [1] demoTrace).2.2.1 (by decide),
   (ls_config_validation demoSolver "FOO" 0 0 [1] demoTrace).2.2.2.1 (by decide),
   (ls_config_validation (set_ls_type demoSolver "FOO") "FOO" 0 0 [1]
      demoTrace).2.2.2.2
     ((ls_config_validation demoSolver "FOO" 0 0 [1] demoTrace).2.1 (by decide))⟩

/-- C8: `solve` returns the engine's boolean success flag, leaves the in/out
coefficient vector at the last accepted iterate (at the initial guess when no
step was accepted), and afterwards the statistics accessors return exactly
the statistics of the (possibly partial) run. -/
theorem solve_flag_iterate_stats (s : NoxSolver) (x0 : List ℚ)
    (tr : EngineTrace) (hok : lsConfigError s = false) :
    (solveModel s x0 tr).2.2 = tr.success
    ∧ (solveModel s x0 tr).2.1 = tr.accepted.getLastD x0
    ∧ (tr.accepted = [] → (solveModel s x0 tr).2.1 = x0)
    ∧ get_num_iters (solveModel s x0 tr).1 = tr.iters
    ∧ get_residual (solveModel s x0 tr).1 = tr.finalResid
    ∧ get_num_lin_iters (solveModel s x0 tr).1 = tr.linIters
    ∧ get_achieved_tol (solveModel s x0 tr).1 = tr.achievedTol := by
  refine ⟨?_, ?_, ?_, ?_, ?_, ?_, ?_⟩ <;>
    simp [solveModel, hok, get_num_iters, get_residual, get_num_lin_iters,
      get_achieved_tol]
  intro h
  simp [h]

/-- Witness for C8: on a failed run of the demo trace the vector is left at
the last accepted iterate and the statistics reflect the run. -/
theorem solve_flag_iterate_stats_witness :
    (solveModel demoSolver [0] demoTrace).2.2 = false
    ∧ (solveModel demoSolver [0] demoTrace).2.1 = [2]
    ∧ get_num_iters (solveModel demoSolver [0] demoTrace).1 = 2 :=
  ⟨(solve_flag_iterate_stats demoSolver [0] demoTrace (by decide)).1,
   (solve_flag_iterate_stats demoSolver [0] demoTrace (by decide)).2.1,
   (solve_flag_iterate_stats demoSolver [0] demoTrace (by decide)).2.2.2.1⟩

/-- C9: the composite convergence predicate depends only on the final
configuration state, not on the history of configuration calls: any two call
sequences ending in the same state yield the same predicate, every
convergence-configuration call is idempotent, and calls concerning different
tests commute. -/
theorem conv_config_history_independent :
    (∀ (l1 l2 : List ConvCall) (s1 s2 : NoxSolver),
        l1.foldl (fun s c => c.apply s) s1 = l2.foldl (fun s c => c.apply s) s2 →
        ∀ i r u w,
          compositeTest (l1.foldl (fun s c => c.apply s) s1) i r u w =
            compositeTest (l2.foldl (fun s c => c.apply s) s2) i r u w)
    ∧ (∀ (c : ConvCall) (s : NoxSolver), c.apply (c.apply s) = c.apply s)
    ∧ (∀ (c1 c2 : ConvCall) (s : NoxSolver), c1.test ≠ c2.test →
        c1.apply (c2.apply s) = c2.apply (c1.apply s)) := by
  refine ⟨?_, ?_, ?_⟩
  · intro l1 l2 s1 s2 h i r u w
    rw [h]
  · intro c s
    cases c <;> rfl
  · intro c1 c2 s h
    cases c1 <;> cases c2 <;> first | rfl | exact absurd rfl h

/-- Witness for C9: enabling the absolute-residual test and the update test
commute on a concrete state. -/
theorem conv_config_history_independent_witness :
    ConvCall.apply (.setAbsResid 1) (ConvCall.apply (.setUpdate 2) demoSolver) =
      ConvCall.apply (.setUpdate 2) (ConvCall.apply (.setAbsResid 1) demoSolver) :=
  conv_config_history_independent.2.2 (.setAbsResid 1) (.setUpdate 2) demoSolver
    (by decide)

lemma op_keeps_update (o : NoxOp) (s : NoxSolver)
    (h : s.conv_flag.update = true) : (o.apply s).conv_flag.update = true := by
  cases o with
  | convCall c => cases c <;> first | rfl | exact h
  | solveOp x0 tr =>
    simp only [NoxOp.apply, solveModel]
    split <;> exact h
  | outputFlags f => exact h
  | lsType t => exact h
  | lsMaxIters n => exact h
  | lsTolerance tol => exact h
  | lsKrylov n => exact h
  | normType nt => exact h
  | scaleType st => exact h
  | convIters n => exact h
  | precondName p => exact h

lemma op_keeps_wrms (o : NoxOp) (s : NoxSolver)
    (h : s.conv_flag.wrms = true) : (o.apply s).conv_flag.wrms = true := by
  cases o with
  | convCall c => cases c <;> first | rfl | exact h
  | solveOp x0 tr =>
    simp only [NoxOp.apply, solveModel]
    split <;> exact h
  | outputFlags f => exact h
  | lsType t => exact h
  | lsMaxIters n => exact h
  | lsTolerance tol => exact h
  | lsKrylov n => exact h
  | normType nt => exact h
  | scaleType st => exact h
  | convIters n => exact h
  | precondName p => exact h

/-- C10: no public operation ever clears the `update` or `wrms` enable flag
(only the absolute- and relative-residual tests have disable setters): once
enabled, these two tests stay enabled under every subsequent sequence of
public operations. -/
theorem update_wrms_flags_never_cleared (ops : List NoxOp) (s : NoxSolver) :
    (s.conv_flag.update = true →
      (ops.foldl (fun s o => NoxOp.apply o s) s).conv_flag.update = true)
    ∧ (s.conv_flag.wrms = true →
      (ops.foldl (fun s o => NoxOp.apply o s) s).conv_flag.wrms = true) := by
  induction ops generalizing s with
  | nil => exact ⟨fun h => h, fun h => h⟩
  | cons o rest ih =>
    exact ⟨fun h => (ih (o.apply s)).1 (op_keeps_update o s h),
           fun h => (ih (o.apply s)).2 (op_keeps_wrms o s h)⟩

/-- Witness for C10: after disabling both residual tests and shrinking the
iteration cap, the update flag of a fully enabled state is still set. -/
theorem update_wrms_flags_never_cleared_witness :
    (([NoxOp.convCall .disableAbs, NoxOp.convCall .disableRel,
        NoxOp.convIters 1]).foldl (fun s o => NoxOp.apply o s)
      { demoSolver with
          conv_flag := ⟨true, true, true, true⟩ }).conv_flag.update = true :=
  (update_wrms_flags_never_cleared
    [NoxOp.convCall .disableAbs, NoxOp.convCall .disableRel, NoxOp.convIters 1]
    { demoSolver with conv_flag := ⟨true, true, true, true⟩ }).1 rfl

end Solvers
end Hermes
